import Mathlib

/-
Shallow embedding of the tsf-app validation and normalization engine.

Source files embedded here:
  backend/api/routes.py        (schema, pattern, day-sequence validation,
                                fill_missing_values, calculate_statistics,
                                generate_predictions)
  backend/utils/ml_api_client.py (prepare_data_for_ml_api, make_prediction)

Modelling conventions:
  - A spreadsheet cell as pandas sees it after read_excel is one of: an
    absent cell (NaN), a numeric cell (rationals stand in for floats), or
    a textual cell.  A textual cell stands for text that is not numerically
    coercible, so pandas to_numeric with coerce maps it to NaN and float()
    raises on it.
  - A DataFrame is column-major: the ordered list of (column name, cells).
  - Validation messages are structured values carrying exactly the data the
    Python f-strings interpolate, instead of formatted strings.
  - Python raising inside a helper is modelled by an Option/Except result.
  - pandas aggregations that yield NaN on an empty series (mean, max, min)
    are modelled as Option, with none standing for NaN.
-/

namespace TsfApp

/-- Cell models one spreadsheet cell: absent (NaN), numeric, or
non-numeric text. -/
inductive Cell where
  | empty : Cell
  | num : ℚ → Cell
  | text : String → Cell
deriving DecidableEq, Repr

/-- Table models a pandas DataFrame in column-major form. -/
abbrev Table := List (String × List Cell)

def blankStr : String := ""

def satName : String := "Sat"

def prethodnaName : String := "Prethodna 24h"

def tempMark : String := "Temp."

/-- Python str.startswith(tempMark), phrased over the character list so
that it evaluates inside the kernel. -/
def isTempColumn (s : String) : Bool :=
  s.data.take tempMark.data.length == tempMark.data

/-- EXPECTED_COLUMNS from routes.py lines 19-32: the fixed 24-name schema. -/
def EXPECTED_COLUMNS : List String :=
  ["Sjutra praznik",
   "Dan u nedelji",
   "Dan u mjesecu",
   "Mjesec",
   "Sat",
   "Temp. min Pg", "Temp. max Pg", "Temp. sr Pg",
   "Temp. min Nk", "Temp. max Nk", "Temp. sr Nk",
   "Temp. min Pv", "Temp. max Pv", "Temp. sr Pv",
   "Temp. min Br", "Temp. max Br", "Temp. sr Br",
   "Temp. min Ul", "Temp. max Ul", "Temp. sr Ul",
   "Temp. min Ct", "Temp. max Ct", "Temp. sr Ct",
   "Prethodna 24h"]

/-- Column names of a table (df.columns.tolist()). -/
def colNames (df : Table) : List String := df.map Prod.fst

/-- Number of data rows, len(df): the length of the first column
(a pandas frame is rectangular, so every column has this length). -/
def nRows (df : Table) : Nat :=
  match df with
  | [] => 0
  | c :: _ => c.2.length

/-- Number of columns, len(df.columns). -/
def nCols (df : Table) : Nat := df.length

/-- Column access df[name]; a missing name would raise KeyError in pandas,
callers below only use names they know exist (or branch on the lookup). -/
def getCol (df : Table) (name : String) : List Cell :=
  (List.lookup name df).getD []

/-- Cell access df.iloc[row][name]. -/
def cellAt (df : Table) (row : Nat) (name : String) : Cell :=
  (getCol df name).getD row Cell.empty

/-- Rewrite every column with a name-dependent function, keeping names. -/
def mapCols (h : String → List Cell → List Cell) (df : Table) : Table :=
  df.map fun c => (c.1, h c.1 c.2)

/-- Replace the column called name with newCol (df[name] = newCol). -/
def setCol (df : Table) (name : String) (newCol : List Cell) : Table :=
  df.map fun c => if c.1 = name then (c.1, newCol) else c

/-- Row-major view of the table, as df.iterrows() yields it: row i holds,
for each column in order, its cell at index i. -/
def rowsOf (df : Table) : List (List Cell) :=
  (List.range (nRows df)).map fun i => df.map fun c => c.2.getD i Cell.empty

/-- Cell counted by count_non_empty: routes.py lines 34-41 fill NaN with
the empty string and count entries different from the empty string, so a
numeric 0 counts and both NaN and empty text do not. -/
def nonEmptyCell : Cell → Bool
  | Cell.empty => false
  | Cell.num _ => true
  | Cell.text s => s != ""

/-- count_non_empty from routes.py lines 34-41. -/
def count_non_empty (col : List Cell) : Nat := col.countP nonEmptyCell

/-- pd.to_numeric(cell, errors=coerce): numbers pass through, absent cells
and non-numeric text become NaN (none). -/
def toNumericCell : Cell → Option ℚ
  | Cell.num q => some q
  | _ => none

/-- Python float(cell) with the fallback of prepare_data_for_ml_api:
empty, None and unparseable cells are mapped to 0.0. -/
def cellToFloat : Cell → ℚ
  | Cell.num q => q
  | _ => 0

/-- Python int() truncation toward zero on a float value. -/
def ratTrunc (q : ℚ) : ℤ := q.num.tdiv q.den

/-- Python int(cell): succeeds on numbers (truncating), raises (none) on
absent cells and non-numeric text. -/
def toIntCell : Cell → Option ℤ
  | Cell.num q => some (ratTrunc q)
  | _ => none

/-- fillna of the final preview: remaining NaNs become empty strings. -/
def fillnaCell (c : Cell) : Cell :=
  if c = Cell.empty then Cell.text blankStr else c

/-- Series.first_valid_index: index of the first non-NA cell.  Note that
empty text is a valid (non-NA) entry even though count_non_empty skips it. -/
def firstValidIndex : List Cell → Option Nat
  | [] => none
  | c :: rest =>
    if c = Cell.empty then (firstValidIndex rest).map (· + 1) else some 0

/-- Structured counterpart of the validation message strings of routes.py.
Each constructor carries exactly the data the corresponding f-string
interpolates. -/
inductive VError where
  /-- line 139: must have exactly 24 data rows, found .. rows -/
  | rowCount (found : Nat)
  /-- line 142: must have exactly 24 columns, found .. columns -/
  | colCount (found : Nat)
  /-- line 148: column i+1 should be .., found .. (none = missing) -/
  | colName (position : Nat) (expected : String) (found : Option String)
  /-- lines 181/186/192/199/204: column .. has a bad population count -/
  | patternCount (column : String) (found : Nat)
  /-- line 225: hours must be between 1-24, found invalid values .. -/
  | hourRange (invalid : List ℚ)
  /-- line 292: day ..: hour .. followed by .. at rows ..-.. (1-based) -/
  | seqNotIncremental (day : Nat) (prevHour nextHour : ℤ) (prevRow nextRow : Nat)
  /-- line 313: day ..: column .. has inconsistent values .. (rows ..) -/
  | inconsistent (day : Nat) (column : String) (distinct : List Cell) (rows : List Nat)
  /-- line 324: day ..: missing hours in sequence .. -/
  | missingHours (day : Nat) (missing : List ℤ)
  /-- line 172: failed to read Excel file (any exception in the body) -/
  | readFailure
deriving DecidableEq, Repr

/-- Schema checks of validate_excel_structure, routes.py lines 137-148:
row count, column count, then one error per positional name mismatch. -/
def schemaErrors (df : Table) : List VError :=
  (if nRows df ≠ 24 then [VError.rowCount (nRows df)] else []) ++
  (if nCols df ≠ 24 then [VError.colCount (nCols df)] else []) ++
  ((List.range EXPECTED_COLUMNS.length).flatMap fun i =>
    if (colNames df)[i]? ≠ some (EXPECTED_COLUMNS.getD i blankStr) then
      [VError.colName (i + 1) (EXPECTED_COLUMNS.getD i blankStr) ((colNames df)[i]?)]
    else [])

/-- Population-count policy of validate_data_patterns, routes.py lines
178-204, in the order the code checks the columns: holiday flag, hour,
the three calendar columns, the 18 temperature columns, consumption. -/
def patternPolicy : List (String × List Nat) :=
  [("Sjutra praznik", [1, 2, 24]),
   ("Sat", [1, 24]),
   ("Dan u mjesecu", [1, 24]),
   ("Mjesec", [1, 24]),
   ("Dan u nedelji", [1, 24])]
  ++ (EXPECTED_COLUMNS.filter isTempColumn).map (fun c => (c, [1, 2, 24]))
  ++ [("Prethodna 24h", [24])]

/-- One policy entry checked: no error when the population count is
allowed, else exactly one error naming the column and the count. -/
def patternCheck (df : Table) (p : String × List Nat) : List VError :=
  let k := count_non_empty (getCol df p.1)
  if k ∈ p.2 then [] else [VError.patternCount p.1 k]

/-- Population-count errors of validate_data_patterns (checks 1-5). -/
def patternCountErrors (df : Table) : List VError :=
  patternPolicy.flatMap (patternCheck df)

/-- Python list(range(a, b+1)) on integers. -/
def intRange (a b : ℤ) : List ℤ :=
  (List.range (b + 1 - a).toNat).map fun (i : ℕ) => a + (i : ℤ)

/-- same_day_columns of validate_single_day, routes.py lines 295-299. -/
def same_day_columns : List String :=
  ["Sjutra praznik", "Dan u nedelji", "Dan u mjesecu", "Mjesec"]
  ++ EXPECTED_COLUMNS.filter isTempColumn

/-- validate_single_day, routes.py lines 276-329.  dayRows pairs each
0-based row index with its (already truncated) hour value. -/
def validate_single_day (df : Table) (dayRows : List (Nat × ℤ)) (dayNumber : Nat) :
    List VError :=
  let rowIndices := dayRows.map Prod.fst
  let hours := dayRows.map Prod.snd
  let monoErrs :=
    if 1 < hours.length then
      (List.range' 1 (hours.length - 1)).flatMap fun i =>
        let prevH := hours.getD (i - 1) 0
        let curH := hours.getD i 0
        if curH ≠ prevH + 1 ∧ ¬(prevH = 24 ∧ curH = 1) then
          [VError.seqNotIncremental dayNumber prevH curH
            (rowIndices.getD (i - 1) 0 + 1) (rowIndices.getD i 0 + 1)]
        else []
    else []
  let consErrs :=
    same_day_columns.flatMap fun col =>
      if col ∈ colNames df then
        let dayValues := rowIndices.filterMap fun r =>
          let v := cellAt df r col
          if v ≠ Cell.empty ∧ v ≠ Cell.text blankStr then some v else none
        if 1 < dayValues.length then
          let uniqueValues := dayValues.dedup
          if 1 < uniqueValues.length then
            [VError.inconsistent dayNumber col uniqueValues (rowIndices.map (· + 1))]
          else []
        else []
      else []
  let gapErrs :=
    if 1 < hours.length then
      let minH := (hours.min?).getD 0
      let maxH := (hours.max?).getD 0
      let expectedHours := intRange minH maxH
      if hours.length = expectedHours.length ∧ hours ≠ expectedHours then
        let missing := expectedHours.filter fun h => h ∉ hours
        if missing.isEmpty then [] else [VError.missingHours dayNumber missing]
      else []
    else []
  monoErrs ++ consErrs ++ gapErrs

/-- Day-group partition loop of validate_hour_sequence_and_consistency,
routes.py lines 241-261: walk the hour series, skip NaN entries, close the
current group after hour 24 or when the immediately next entry is a
non-NaN hour smaller than the current one; the trailing group is closed
at the end.  The first argument is the running row index. -/
def partGo (i : Nat) : List (Option ℚ) → List (Nat × ℤ) → List (List (Nat × ℤ))
  | [], current => if current.isEmpty then [] else [current]
  | o :: rest, current =>
    match o with
    | none => partGo (i + 1) rest current
    | some q =>
      let hour := ratTrunc q
      let current2 := current ++ [(i, hour)]
      let closeHere : Bool :=
        (hour == 24) ||
        (match rest with
         | some q2 :: _ => decide (ratTrunc q2 < hour)
         | _ => false)
      if closeHere then current2 :: partGo (i + 1) rest [] else partGo (i + 1) rest current2

/-- validate_hour_sequence_and_consistency, routes.py lines 236-274. -/
def validate_hour_sequence_and_consistency (df : Table) (hoursSeries : List (Option ℚ)) :
    List VError :=
  let day_groups := partGo 0 hoursSeries []
  day_groups.enum.flatMap fun p =>
    if p.2.isEmpty then [] else validate_single_day df p.2 (p.1 + 1)

/-- validate_advanced_patterns, routes.py lines 212-234: coerce the hour
column, report out-of-range values whenever at least one hour is numeric,
and run the day-sequence checks only when all 24 coerced hours are valid. -/
def validate_advanced_patterns (df : Table) : List VError :=
  let hoursSeries := (getCol df satName).map toNumericCell
  let valid_hours := hoursSeries.filterMap id
  if 0 < valid_hours.length then
    (if 0 < (valid_hours.filter fun h => h < 1 ∨ 24 < h).length then
       [VError.hourRange (valid_hours.filter fun h => h < 1 ∨ 24 < h)]
     else []) ++
    (if valid_hours.length = 24 then validate_hour_sequence_and_consistency df hoursSeries
     else [])
  else []

/-- validate_data_patterns, routes.py lines 174-210: the five
population-count checks followed by the advanced (day-sequence) errors. -/
def validate_data_patterns (df : Table) : List VError :=
  patternCountErrors df ++ validate_advanced_patterns df

/-- repeat_down_columns of fill_missing_values, routes.py lines 106-109:
every expected column except consumption and the hour column. -/
def repeat_down_columns : List String :=
  (EXPECTED_COLUMNS.erase prethodnaName).erase satName

/-- Series.ffill: each NaN takes the most recent preceding non-NA value
(empty text is a valid value and is propagated); leading NaNs stay NaN. -/
def ffillGo (last : Option Cell) : List Cell → List Cell
  | [] => []
  | c :: rest =>
    if c = Cell.empty then (last.getD Cell.empty) :: ffillGo last rest
    else c :: ffillGo (some c) rest

def ffillCol (col : List Cell) : List Cell := ffillGo none col

/-- Hour cycle written by the loop at routes.py lines 121-122:
cell i becomes (start_hour + i) mod 24, with the mod of Python
(nonnegative for the positive modulus 24). -/
def regenHours (start_hour : ℤ) : List Cell :=
  (List.range 24).map fun (i : ℕ) => Cell.num ((Int.emod (start_hour + (i : ℤ)) 24 : ℤ) : ℚ)

/-- Forward-fill loop of fill_missing_values, routes.py lines 111-113:
every repeat-down column is ffilled, the hour and consumption columns
are left alone. -/
def ffillStep (df_filled : Table) : Table :=
  mapCols (fun n col => if n ∈ repeat_down_columns then ffillCol col else col) df_filled

/-- Hour branch of fill_missing_values, routes.py lines 115-122: when the
hour column has population count exactly 1, locate the first valid cell,
read its int value (none models the ValueError int() raises on a
non-numeric cell) and rewrite the 24 hour cells as the modular cycle. -/
def satStep (df_filled : Table) : Option Table :=
  if count_non_empty (getCol df_filled satName) = 1 then
    match firstValidIndex (getCol df_filled satName) with
    | none => some df_filled
    | some j =>
      match toIntCell ((getCol df_filled satName).getD j Cell.empty) with
      | none => none
      | some start_hour => some (setCol df_filled satName (regenHours start_hour))
  else some df_filled

/-- Final fillna of fill_missing_values, routes.py line 125. -/
def fillnaStep (t : Table) : Table := mapCols (fun _ col => col.map fillnaCell) t

/-- fill_missing_values, routes.py lines 102-127, as a function of the
table value: forward-fill the repeat-down columns, expand a single hour
seed into the full cycle, and replace the remaining NaNs with empty
strings.  none models the ValueError escaping from the hour branch. -/
def fill_missing_values (df : Table) : Option Table :=
  (satStep (ffillStep df)).map fillnaStep

/-- PandasStore holds the two frame objects alive inside
fill_missing_values: the callers df and the working copy df_filled. -/
structure PandasStore where
  df : Table
  df_filled : Table
deriving DecidableEq, Repr

/-- fill_missing_values replayed against an explicit store: df_filled is
initialised to a copy of df (by the caller building the store) and every
write of the Python body (lines 113, 122, 125) targets the df_filled
field only; none models the ValueError escape. -/
def fill_missing_values_run (s : PandasStore) : Option PandasStore :=
  let s1 : PandasStore := { s with df_filled := ffillStep s.df_filled }
  let s2 : Option PandasStore := (satStep s1.df_filled).map fun t => { s1 with df_filled := t }
  s2.map fun t => { t with df_filled := fillnaStep t.df_filled }

/-- Summary statistics record of calculate_statistics.  The three
aggregations that pandas leaves as NaN on an empty series are Options. -/
structure Stats where
  totalRows : Nat
  totalColumns : Nat
  avgConsumption : Option ℚ
  peakConsumption : Option ℚ
  minConsumption : Option ℚ
  totalConsumption : ℚ
deriving DecidableEq, Repr

/-- calculate_statistics, routes.py lines 331-352: coerce the consumption
column and aggregate; the zeros fallback runs only when the body raises,
which happens exactly when the column lookup itself fails (KeyError).
mean, max and min of an empty coerced series are NaN (none), its sum 0. -/
def calculate_statistics (df : Table) : Stats :=
  match List.lookup prethodnaName df with
  | none => ⟨nRows df, nCols df, some 0, some 0, some 0, 0⟩
  | some col =>
    let consumption := col.filterMap toNumericCell
    ⟨nRows df, nCols df,
     if consumption.isEmpty then none
     else some (consumption.sum / (consumption.length : ℚ)),
     consumption.max?,
     consumption.min?,
     consumption.sum⟩

/-- Validation result of validate_excel_structure.  The early schema
return carries no preview and no statistics (none). -/
structure VResult where
  is_valid : Bool
  errors : List VError
  preview_data : Option Table
  statistics : Option Stats
deriving DecidableEq, Repr

/-- validate_excel_structure, routes.py lines 129-172 (after the file has
been read into a table): accumulate the schema errors and stop there when
any exist; otherwise run the pattern and day-sequence checks, build the
preview from the filled copy and the statistics from the raw table.  An
exception escaping fill_missing_values is caught by the outer handler,
which reports a read failure. -/
def validate_excel_structure (df : Table) : VResult :=
  let errs := schemaErrors df
  if errs.isEmpty then
    let patErrs := validate_data_patterns df
    match fill_missing_values df with
    | none => ⟨false, [VError.readFailure], none, none⟩
    | some filled => ⟨patErrs.isEmpty, patErrs, some filled, some (calculate_statistics df)⟩
  else ⟨false, errs, none, none⟩

def shapeMsgInput : String := "Expected 24x24 data"

def shapeMsgResult : String := "Data conversion resulted in a shape other than (24, 24)"

/-- prepare_data_for_ml_api, ml_api_client.py lines 35-74: reject tables
that are not 24x24, coerce every cell to a float with 0.0 for empty or
unparseable cells, and check the resulting matrix shape. -/
def prepare_data_for_ml_api (df : Table) : Except String (List (List ℚ)) :=
  if nRows df ≠ 24 ∨ nCols df ≠ 24 then Except.error shapeMsgInput
  else
    let numeric_data := (rowsOf df).map fun row => row.map cellToFloat
    if numeric_data.length = 24 ∧ ∀ r ∈ numeric_data, r.length = 24 then
      Except.ok numeric_data
    else Except.error shapeMsgResult

/-- Response of the external forecasting capability as make_prediction
surfaces it: a success flag, the forecast values, and an error message. -/
structure MLResponse where
  success : Bool
  predictions : List ℚ
  errMsg : String
deriving DecidableEq, Repr

/-- Outcome of the /predict route body, routes.py lines 376-478: each
failing branch carries no forecast values. -/
inductive PredictOutcome where
  | unavailable
  | prepFailed (msg : String)
  | mlFailed (msg : String)
  | badLength (got : Nat)
  | ok (values confMin confMax : List ℚ)
deriving DecidableEq, Repr

/-- generate_predictions, routes.py lines 354-478, parameterised by the
health probe, the prepared matrix and the single external prediction call
the route makes for its one modelType.  The second component counts how
many times make_prediction is invoked. -/
def generate_predictions_core (healthOk : Bool)
    (prep : Except String (List (List ℚ)))
    (make_prediction : Unit → MLResponse) : PredictOutcome × Nat :=
  if healthOk = false then (PredictOutcome.unavailable, 0)
  else
    match prep with
    | Except.error m => (PredictOutcome.prepFailed m, 0)
    | Except.ok _ =>
      let r := make_prediction ()
      if r.success = false then (PredictOutcome.mlFailed r.errMsg, 1)
      else if r.predictions.length ≠ 24 then (PredictOutcome.badLength r.predictions.length, 1)
      else (PredictOutcome.ok r.predictions
              (r.predictions.map fun v => v * (97 / 100))
              (r.predictions.map fun v => v * (103 / 100)), 1)

/-! ## Concrete tables used to exercise the definitions -/

/-- A fully absent column (24 NaN cells, as read_excel yields them). -/
def emptyCol : List Cell := List.replicate 24 Cell.empty

/-- Schema-conforming table: every expected column present and 24 cells
long, with a chosen hour column and consumption column and every other
column absent. -/
def mkTable (satCol consCol : List Cell) : Table :=
  EXPECTED_COLUMNS.map fun n =>
    if n = satName then (n, satCol)
    else if n = prethodnaName then (n, consCol)
    else (n, emptyCol)

/-- Hour column 1, 2, 3, ..., 24: one full day. -/
def hoursFull : List Cell := (List.range 24).map fun i => Cell.num ((i + 1 : ℕ) : ℚ)

/-- Hour column 1, 2, 4, 5, ..., 24 (hour 3 skipped) followed by hour 1,
so that all 24 cells hold hours and the first day-group is exactly
1, 2, 4, 5, ..., 24. -/
def hoursSkip : List Cell :=
  Cell.num 1 :: Cell.num 2 ::
    (((List.range 21).map fun i => Cell.num ((i + 4 : ℕ) : ℚ)) ++ [Cell.num 1])

def dfFullDay : Table := mkTable hoursFull emptyCol

def dfSkipDay : Table := mkTable hoursSkip emptyCol

/-- The day-group rows the code derives for the first 23 rows of
dfSkipDay: row i paired with its hour, hours 1, 2, 4, 5, ..., 24. -/
def skipDayRows : List (Nat × ℤ) :=
  (0, 1) :: (1, 2) :: ((List.range 21).map fun i => (i + 2, (i : ℤ) + 4))

def sjutraName : String := "Sjutra praznik"

def isMissingHoursErr : VError → Bool
  | VError.missingHours _ _ => true
  | _ => false

def isSeqNotIncErr : VError → Bool
  | VError.seqNotIncremental _ _ _ _ _ => true
  | _ => false

def isHourRangeErr : VError → Bool
  | VError.hourRange _ => true
  | _ => false

def isPatternErr : VError → Bool
  | VError.patternCount _ _ => true
  | _ => false

/-! ## C1: day-sequence monotonicity and gap detection -/

set_option maxRecDepth 4000 in
/-- C1, counterexample.  The claim asserts that a day-group with hours
1, 2, 4, 5, ..., 24 (hour 3 skipped) yields exactly one gap error citing
missing hour 3.  On the code it yields none: the gap check at routes.py
line 321 fires only when the count of hours equals max-min+1, and the
skip makes the count 23 against a range of 24.  The monotonicity error is
the only error produced. -/
theorem day_sequence_skip_yields_no_gap_error :
    (validate_single_day dfSkipDay skipDayRows 1).countP isMissingHoursErr = 0 ∧
    VError.missingHours 1 [3] ∉ validate_single_day dfSkipDay skipDayRows 1 := by
  decide

set_option maxRecDepth 8000 in
/-- C1, amended.  Hours 1..24 in one group produce zero day-sequence
errors; the skip table produces exactly one monotonicity error citing
hour 2 followed by hour 4 at 1-based rows 2-3, and no gap error,
both through the full advanced validation and through
validate_single_day on the skipped-hour day-group alone. -/
theorem day_sequence_monotonicity_behavior :
    validate_advanced_patterns dfFullDay = [] ∧
    validate_advanced_patterns dfSkipDay = [VError.seqNotIncremental 1 2 4 2 3] ∧
    validate_single_day dfSkipDay skipDayRows 1 = [VError.seqNotIncremental 1 2 4 2 3] := by
  decide

/-! ## C2: schema errors suppress all later checks -/

theorem length_flatMap_ite {α β : Type} (l : List α) (p : α → Prop) [DecidablePred p]
    (e : α → β) :
    (l.flatMap fun a => if p a then [e a] else []).length
      = l.countP fun a => decide (p a) := by
  induction l with
  | nil => rfl
  | cons x t ih =>
    simp only [List.flatMap_cons, List.length_append, ih, List.countP_cons]
    by_cases hx : p x
    · rw [if_pos hx, if_pos (decide_eq_true hx)]
      simp [Nat.add_comm]
    · rw [if_neg hx]
      simp [hx]

/-- C2.  Whenever the row count differs from 24, the column count differs
from 24, or a positional column name mismatches the fixed schema, the
validator returns exactly the accumulated schema errors (one per count or
name mismatch) with no preview and no statistics: the pattern and
day-sequence checks never contribute. -/
theorem validate_excel_structure_schema_gate (df : Table)
    (h : nRows df ≠ 24 ∨ nCols df ≠ 24 ∨
         ∃ i, i < 24 ∧ (colNames df)[i]? ≠ some (EXPECTED_COLUMNS.getD i blankStr)) :
    validate_excel_structure df = ⟨false, schemaErrors df, none, none⟩ ∧
    (schemaErrors df).length =
      (if nRows df ≠ 24 then 1 else 0) + (if nCols df ≠ 24 then 1 else 0) +
        (List.range EXPECTED_COLUMNS.length).countP
          (fun i => decide ((colNames df)[i]? ≠ some (EXPECTED_COLUMNS.getD i blankStr))) := by
  have hlen : EXPECTED_COLUMNS.length = 24 := rfl
  have hne : schemaErrors df ≠ [] := by
    rcases h with h1 | h2 | ⟨i, hi, hm⟩
    · simp [schemaErrors, h1]
    · simp [schemaErrors, h2]
    · apply List.ne_nil_of_mem
        (a := VError.colName (i + 1) (EXPECTED_COLUMNS.getD i blankStr) ((colNames df)[i]?))
      unfold schemaErrors
      refine List.mem_append_right _ ?_
      refine List.mem_flatMap.mpr ⟨i, List.mem_range.mpr (lt_of_lt_of_eq hi hlen.symm), ?_⟩
      rw [if_pos hm]
      exact List.mem_singleton.mpr rfl
  constructor
  · have hE : (schemaErrors df).isEmpty = false := by
      cases hv : schemaErrors df with
      | nil => exact absurd hv hne
      | cons a t => rfl
    simp [validate_excel_structure, hE]
  · unfold schemaErrors
    rw [List.length_append, List.length_append, length_flatMap_ite]
    by_cases h1 : nRows df ≠ 24 <;> by_cases h2 : nCols df ≠ 24 <;> simp [h1, h2]

/-- A structurally malformed table: one single column. -/
def dfBadCols : Table := [("Sjutra praznik", emptyCol)]

/-- Witness: the schema gate applied to the one-column table. -/
theorem validate_excel_structure_schema_gate_witness :
    (nRows dfBadCols ≠ 24 ∨ nCols dfBadCols ≠ 24 ∨
      ∃ i, i < 24 ∧ (colNames dfBadCols)[i]? ≠ some (EXPECTED_COLUMNS.getD i blankStr)) ∧
    (validate_excel_structure dfBadCols = ⟨false, schemaErrors dfBadCols, none, none⟩ ∧
     (schemaErrors dfBadCols).length =
       (if nRows dfBadCols ≠ 24 then 1 else 0) + (if nCols dfBadCols ≠ 24 then 1 else 0) +
         (List.range EXPECTED_COLUMNS.length).countP
           (fun i => decide ((colNames dfBadCols)[i]? ≠ some (EXPECTED_COLUMNS.getD i blankStr)))) :=
  ⟨Or.inr (Or.inl (by decide)),
   validate_excel_structure_schema_gate dfBadCols (Or.inr (Or.inl (by decide)))⟩

/-! ## C3: population-count pattern errors -/

/-- Pattern error naming a given column. -/
def isPatternFor (c : String) : VError → Bool
  | VError.patternCount c2 _ => c2 == c
  | _ => false

theorem isPatternFor_of_not_pattern (c : String) (e : VError)
    (h : isPatternErr e = false) : isPatternFor c e = false := by
  cases e <;> first | rfl | exact absurd h (by simp [isPatternErr])

theorem eq_of_mem_ite_singleton {α : Type} {e a : α} {c : Prop} [Decidable c]
    (h : e ∈ if c then [a] else []) : e = a := by
  split at h
  · simpa using h
  · cases h

theorem mem_of_ite_nil {α : Type} {e : α} {c : Prop} [Decidable c] {l : List α}
    (h : e ∈ if c then l else []) : e ∈ l := by
  split at h
  · exact h
  · cases h

theorem mem_of_ite_nil_left {α : Type} {e : α} {c : Prop} [Decidable c] {l : List α}
    (h : e ∈ if c then [] else l) : e ∈ l := by
  split at h
  · cases h
  · exact h

/-- Every error produced by validate_single_day is a sequence-kind error,
never a population-count error. -/
theorem single_day_not_pattern (df : Table) (dr : List (Nat × ℤ)) (n : Nat) :
    ∀ e ∈ validate_single_day df dr n, isPatternErr e = false := by
  intro e he
  simp only [validate_single_day, List.mem_append] at he
  rcases he with (hm | hc) | hg
  · obtain ⟨i, _, hin⟩ := List.mem_flatMap.mp (mem_of_ite_nil hm)
    rw [eq_of_mem_ite_singleton hin]; rfl
  · obtain ⟨col, _, hin⟩ := List.mem_flatMap.mp hc
    rw [eq_of_mem_ite_singleton (mem_of_ite_nil (mem_of_ite_nil hin))]; rfl
  · rw [List.mem_singleton.mp (mem_of_ite_nil_left (mem_of_ite_nil (mem_of_ite_nil hg)))]
    rfl

theorem hour_seq_not_pattern (df : Table) (hs : List (Option ℚ)) :
    ∀ e ∈ validate_hour_sequence_and_consistency df hs, isPatternErr e = false := by
  intro e he
  simp only [validate_hour_sequence_and_consistency] at he
  obtain ⟨p, _, hin⟩ := List.mem_flatMap.mp he
  exact single_day_not_pattern df p.2 (p.1 + 1) e (mem_of_ite_nil_left hin)

theorem advanced_not_pattern (df : Table) :
    ∀ e ∈ validate_advanced_patterns df, isPatternErr e = false := by
  intro e he
  simp only [validate_advanced_patterns] at he
  rcases List.mem_append.mp (mem_of_ite_nil he) with h2 | h2
  · rw [eq_of_mem_ite_singleton h2]; rfl
  · exact hour_seq_not_pattern df _ e (mem_of_ite_nil h2)

theorem countP_patternCheck_ne (df : Table) (c : String) (p : String × List Nat)
    (hne : p.1 ≠ c) : (patternCheck df p).countP (isPatternFor c) = 0 := by
  simp only [patternCheck]
  split
  · rfl
  · simp [isPatternFor, hne]

theorem countP_policy_not_mem (df : Table) (c : String) (l : List (String × List Nat))
    (h : c ∉ l.map Prod.fst) :
    (l.flatMap (patternCheck df)).countP (isPatternFor c) = 0 := by
  induction l with
  | nil => rfl
  | cons p t ih =>
    simp only [List.map_cons, List.mem_cons, not_or] at h
    simp only [List.flatMap_cons, List.countP_append]
    rw [countP_patternCheck_ne df c p (fun hq => h.1 (hq ▸ rfl)), ih h.2]

theorem countP_policy_mem (df : Table) (c : String) (A : List Nat)
    (l : List (String × List Nat)) (hmem : (c, A) ∈ l)
    (hnd : (l.map Prod.fst).Nodup) :
    (l.flatMap (patternCheck df)).countP (isPatternFor c)
      = (patternCheck df (c, A)).countP (isPatternFor c) := by
  induction l with
  | nil => cases hmem
  | cons p t ih =>
    simp only [List.map_cons, List.nodup_cons] at hnd
    simp only [List.flatMap_cons, List.countP_append]
    rcases List.mem_cons.mp hmem with heq | hmemt
    · rw [← heq]
      rw [countP_policy_not_mem df c t
        (by rw [show c = p.1 from congrArg Prod.fst heq]; exact hnd.1), Nat.add_zero]
    · have hp1 : p.1 ≠ c := by
        intro hq
        exact hnd.1 (hq ▸ List.mem_map.mpr ⟨(c, A), hmemt, rfl⟩)
      rw [countP_patternCheck_ne df c p hp1, ih hmemt hnd.2, Nat.zero_add]

/-- C3.  For every table and every governed column with allowed set A,
validate_data_patterns emits exactly one population-count error naming
that column when its population count k lies outside A (and that error
carries k), and none otherwise; and a numeric 0 cell counts as present. -/
theorem validate_data_patterns_population_count (df : Table) (c : String) (A : List Nat)
    (hmem : (c, A) ∈ patternPolicy) :
    ((validate_data_patterns df).countP (isPatternFor c)
        = if count_non_empty (getCol df c) ∈ A then 0 else 1)
    ∧ (count_non_empty (getCol df c) ∉ A →
        VError.patternCount c (count_non_empty (getCol df c)) ∈ validate_data_patterns df)
    ∧ nonEmptyCell (Cell.num 0) = true := by
  have hnd : (patternPolicy.map Prod.fst).Nodup := by decide
  refine ⟨?_, ?_, rfl⟩
  · unfold validate_data_patterns patternCountErrors
    rw [List.countP_append]
    have hadv : (validate_advanced_patterns df).countP (isPatternFor c) = 0 :=
      List.countP_eq_zero.mpr fun e he => by
        rw [isPatternFor_of_not_pattern c e (advanced_not_pattern df e he)]
        exact Bool.false_ne_true
    rw [hadv, Nat.add_zero, countP_policy_mem df c A patternPolicy hmem hnd]
    simp only [patternCheck]
    split
    · rfl
    · simp [isPatternFor]
  · intro hk
    unfold validate_data_patterns patternCountErrors
    refine List.mem_append_left _ (List.mem_flatMap.mpr ⟨(c, A), hmem, ?_⟩)
    simp only [patternCheck]
    rw [if_neg hk]
    exact List.mem_singleton.mpr rfl

set_option maxRecDepth 4000 in
/-- Witness: the empty holiday-flag column of dfFullDay has population
count 0, outside its allowed set, and yields exactly one pattern error. -/
theorem validate_data_patterns_population_count_witness :
    ((sjutraName, ([1, 2, 24] : List Nat)) ∈ patternPolicy) ∧
    (((validate_data_patterns dfFullDay).countP (isPatternFor sjutraName)
        = if count_non_empty (getCol dfFullDay sjutraName) ∈ [1, 2, 24] then 0 else 1)
     ∧ (count_non_empty (getCol dfFullDay sjutraName) ∉ [1, 2, 24] →
         VError.patternCount sjutraName
           (count_non_empty (getCol dfFullDay sjutraName)) ∈ validate_data_patterns dfFullDay)
     ∧ nonEmptyCell (Cell.num 0) = true) :=
  ⟨by decide, validate_data_patterns_population_count dfFullDay sjutraName [1, 2, 24] (by decide)⟩

/-! ## C4: when the day-sequence checks run -/

theorem lookup_isSome_of_mem_keys {β : Type} (n : String) (l : List (String × β))
    (h : n ∈ l.map Prod.fst) : ∃ v, List.lookup n l = some v := by
  induction l with
  | nil => cases h
  | cons p t ih =>
    simp only [List.map_cons, List.mem_cons] at h
    by_cases he : (n == p.1) = true
    · exact ⟨p.2, by simp [List.lookup, he]⟩
    · rcases h with h1 | h2
      · exact absurd (by rw [h1]; exact beq_self_eq_true p.1) he
      · obtain ⟨v, hv⟩ := ih h2
        exact ⟨v, by simp [List.lookup, he, hv]⟩

theorem mem_of_lookup_eq_some {β : Type} {n : String} {l : List (String × β)} {v : β}
    (h : List.lookup n l = some v) : (n, v) ∈ l := by
  induction l with
  | nil => cases h
  | cons p t ih =>
    by_cases he : (n == p.1) = true
    · simp only [List.lookup, he] at h
      have : v = p.2 := by cases h; rfl
      rw [this, eq_of_beq he]
      exact List.mem_cons_self p t
    · simp only [List.lookup] at h
      rw [Bool.eq_false_iff.mpr he] at h
      exact List.mem_cons_of_mem p (ih h)

/-- Numerically coercible cells are in particular populated cells. -/
theorem length_filterMap_le_countP (l : List Cell) :
    (l.filterMap toNumericCell).length ≤ l.countP nonEmptyCell := by
  induction l with
  | nil => exact Nat.le_refl 0
  | cons c t ih =>
    cases c with
    | empty => simpa [List.filterMap_cons, List.countP_cons, toNumericCell, nonEmptyCell] using ih
    | num q =>
      simpa [List.filterMap_cons, List.countP_cons, toNumericCell, nonEmptyCell]
        using Nat.succ_le_succ ih
    | text s =>
      simp only [List.filterMap_cons, List.countP_cons, toNumericCell, nonEmptyCell]
      split <;> omega

/-- C4, amended.  The day-group partition, monotonicity, same-day
consistency and gap checks run only when all 24 hour cells coerce to
numbers, which cannot happen while the population count differs from 24;
but the hour-range check runs whenever at least one hour cell is numeric,
so on a schema-valid table whose hour population count is not 24 the only
sequence errors that can appear are hour-range errors. -/
theorem advanced_gate_only_range_below_full_population (df : Table)
    (hnames : colNames df = EXPECTED_COLUMNS)
    (hWF : ∀ c ∈ df, c.2.length = 24)
    (hpop : count_non_empty (getCol df satName) ≠ 24) :
    ∀ e ∈ validate_advanced_patterns df, ∃ vals, e = VError.hourRange vals := by
  obtain ⟨col, hcol⟩ :=
    lookup_isSome_of_mem_keys satName df (by rw [show df.map Prod.fst = colNames df from rfl, hnames]; decide)
  have hclen : col.length = 24 := hWF (satName, col) (mem_of_lookup_eq_some hcol)
  have hsatcol : getCol df satName = col := by rw [getCol, hcol]; rfl
  have hlt : (((getCol df satName).map toNumericCell).filterMap id).length ≠ 24 := by
    have h1 : ((getCol df satName).map toNumericCell).filterMap id
        = (getCol df satName).filterMap toNumericCell := by
      rw [List.filterMap_map]; rfl
    have h2 := length_filterMap_le_countP (getCol df satName)
    have h3 : count_non_empty (getCol df satName) ≤ 24 := by
      unfold count_non_empty
      rw [hsatcol]
      have h4 := List.countP_le_length (p := nonEmptyCell) (l := col)
      rw [hclen] at h4
      exact h4
    rw [h1]
    unfold count_non_empty at hpop h3
    omega
  intro e he
  simp only [validate_advanced_patterns] at he
  rcases List.mem_append.mp (mem_of_ite_nil he) with h2 | h2
  · exact ⟨_, eq_of_mem_ite_singleton h2⟩
  · exfalso
    split at h2
    · next hc => exact hlt hc
    · cases h2

/-- Schema-valid table whose hour column holds the single numeric value
25 (population count 1) and nothing else. -/
def dfHourRange : Table := mkTable (Cell.num 25 :: List.replicate 23 Cell.empty) emptyCol

set_option maxRecDepth 2000 in
/-- C4, counterexample.  The claim says a schema-valid table whose hour
population count is not 24 reports no sequence errors of any kind; this
table has hour population count 1 yet reports the hour-range sequence
error for the out-of-range value 25, because the range check at
routes.py lines 222-225 runs whenever at least one hour cell is numeric. -/
theorem advanced_range_error_despite_sparse_hours :
    schemaErrors dfHourRange = [] ∧
    count_non_empty (getCol dfHourRange satName) = 1 ∧
    validate_advanced_patterns dfHourRange = [VError.hourRange [25]] := by
  decide

set_option maxRecDepth 2000 in
/-- Witness: the amended gate applied to the sparse-hour table. -/
theorem advanced_gate_only_range_below_full_population_witness :
    (colNames dfHourRange = EXPECTED_COLUMNS ∧
     (∀ c ∈ dfHourRange, c.2.length = 24) ∧
     count_non_empty (getCol dfHourRange satName) ≠ 24) ∧
    (∀ e ∈ validate_advanced_patterns dfHourRange, ∃ vals, e = VError.hourRange vals) :=
  ⟨⟨by decide, by decide, by decide⟩,
   advanced_gate_only_range_below_full_population dfHourRange
     (by decide) (by decide) (by decide)⟩

/-! ## C7: statistics when the consumption column is not coercible -/

def strX : String := "xx"

/-- Schema-valid table whose consumption column holds only non-numeric
text: no cell of it is numerically coercible. -/
def dfNoNumbers : Table := mkTable hoursFull (List.replicate 24 (Cell.text strX))

set_option maxRecDepth 2000 in
/-- C7, counterexample.  The claim says the summarizer returns zeros for
all four aggregates when no consumption cell is coercible; on the code
the coerced series is empty, so pandas mean, max and min come back as
NaN (modelled none), not zero, while only the sum is 0.  The request
still succeeds (the record is produced, with the 24x24 counts). -/
theorem statistics_not_zero_on_uncoercible :
    (calculate_statistics dfNoNumbers).totalRows = 24 ∧
    (calculate_statistics dfNoNumbers).totalColumns = 24 ∧
    (calculate_statistics dfNoNumbers).totalConsumption = 0 ∧
    ¬ ((calculate_statistics dfNoNumbers).avgConsumption = some 0 ∧
       (calculate_statistics dfNoNumbers).peakConsumption = some 0 ∧
       (calculate_statistics dfNoNumbers).minConsumption = some 0) := by
  decide

/-- C7, amended.  For every 24-row, 24-column table whose consumption
column exists but has no numerically coercible cell, the summarizer
returns row count 24, column count 24, NaN (none) for mean, max and min,
and 0 for the sum, rather than failing; the zeros fallback is reserved
for the case where reading the column itself raises. -/
theorem statistics_on_uncoercible_column (df : Table) (col : List Cell)
    (hr : nRows df = 24) (hc : nCols df = 24)
    (hlk : List.lookup prethodnaName df = some col)
    (hnone : col.filterMap toNumericCell = []) :
    calculate_statistics df = ⟨24, 24, none, none, none, 0⟩ := by
  simp [calculate_statistics, hlk, hnone, hr, hc]

set_option maxRecDepth 2000 in
/-- Witness: the amended statistics statement at the all-text table. -/
theorem statistics_on_uncoercible_column_witness :
    (nRows dfNoNumbers = 24 ∧ nCols dfNoNumbers = 24 ∧
     List.lookup prethodnaName dfNoNumbers = some (List.replicate 24 (Cell.text strX)) ∧
     (List.replicate 24 (Cell.text strX)).filterMap toNumericCell = []) ∧
    calculate_statistics dfNoNumbers = ⟨24, 24, none, none, none, 0⟩ :=
  ⟨⟨by decide, by decide, by decide, by decide⟩,
   statistics_on_uncoercible_column dfNoNumbers (List.replicate 24 (Cell.text strX))
     (by decide) (by decide) (by decide) (by decide)⟩

/-! ## C8: the 24x24 forecast matrix -/

/-- C8.  For every rectangular 24-row, 24-column table the matrix
builder succeeds with the float coercion of every cell (absent and
unparseable cells as 0.0): under the 24x24 precondition both
shape-error branches are unreachable. -/
theorem prepare_data_for_ml_api_ok (df : Table)
    (h1 : nRows df = 24) (h2 : nCols df = 24)
    (_hWF : ∀ c ∈ df, c.2.length = 24) :
    prepare_data_for_ml_api df
      = Except.ok ((rowsOf df).map fun row => row.map cellToFloat) := by
  unfold prepare_data_for_ml_api
  rw [if_neg (by simp [h1, h2])]
  rw [if_pos]
  constructor
  · simp [rowsOf, h1]
  · intro r hr
    obtain ⟨row, hrow, hmap⟩ := List.mem_map.mp hr
    obtain ⟨i, _, hrow2⟩ := List.mem_map.mp hrow
    rw [← hmap, List.length_map, ← hrow2, List.length_map]
    exact h2

/-- Consumption column with exactly two unparseable cells (rows 22, 23). -/
def consTwoBad : List Cell :=
  (List.range 24).map fun i => if i < 22 then Cell.num 5 else Cell.text strX

def dfTwoBad : Table := mkTable hoursFull consTwoBad

set_option maxRecDepth 2000 in
/-- Witness: a 24x24 table with two unparseable cells yields the full
coerced matrix (those two cells as 0.0), not a shape error. -/
theorem prepare_data_for_ml_api_ok_witness :
    (nRows dfTwoBad = 24 ∧ nCols dfTwoBad = 24 ∧ (∀ c ∈ dfTwoBad, c.2.length = 24)) ∧
    prepare_data_for_ml_api dfTwoBad
      = Except.ok ((rowsOf dfTwoBad).map fun row => row.map cellToFloat) ∧
    cellToFloat (Cell.text strX) = 0 :=
  ⟨⟨by decide, by decide, by decide⟩,
   prepare_data_for_ml_api_ok dfTwoBad (by decide) (by decide) (by decide), rfl⟩

/-! ## C9: the single-model prediction request and the length gate -/

/-- C9.  A prediction request names exactly one model (the route reads a
single modelType), so the external capability is called exactly once;
when that call succeeds but returns a number of forecast values other
than 24, the whole request fails with the invalid-length error and the
outcome carries no forecast values. -/
theorem generate_predictions_length_gate
    (prep : Except String (List (List ℚ))) (call : Unit → MLResponse)
    (M : List (List ℚ)) (hprep : prep = Except.ok M)
    (hs : (call ()).success = true)
    (hlen : (call ()).predictions.length ≠ 24) :
    generate_predictions_core true prep call
        = (PredictOutcome.badLength (call ()).predictions.length, 1) ∧
    ∀ v a b, PredictOutcome.badLength (call ()).predictions.length ≠ PredictOutcome.ok v a b := by
  constructor
  · subst hprep
    simp [generate_predictions_core, hs, hlen]
  · intro v a b
    exact fun hcontra => by cases hcontra

/-- External call stub that responds with 23 forecast values. -/
def call23 : Unit → MLResponse := fun _ => ⟨true, List.replicate 23 0, blankStr⟩

/-- Witness: the length gate at a concrete 23-value response. -/
theorem generate_predictions_length_gate_witness :
    ((Except.ok ([] : List (List ℚ)) : Except String (List (List ℚ)))
        = Except.ok ([] : List (List ℚ)) ∧
     (call23 ()).success = true ∧ (call23 ()).predictions.length ≠ 24) ∧
    (generate_predictions_core true (Except.ok ([] : List (List ℚ))) call23
        = (PredictOutcome.badLength (call23 ()).predictions.length, 1) ∧
     ∀ v a b, PredictOutcome.badLength (call23 ()).predictions.length
        ≠ PredictOutcome.ok v a b) :=
  ⟨⟨rfl, by decide, by decide⟩,
   generate_predictions_length_gate (Except.ok ([] : List (List ℚ))) call23 []
     rfl (by decide) (by decide)⟩

/-! ## Toolkit for the normalizer proofs -/

theorem lookup_mapCols (h : String → List Cell → List Cell) (df : Table) (n : String) :
    List.lookup n (mapCols h df) = (List.lookup n df).map (h n) := by
  induction df with
  | nil => rfl
  | cons c t ih =>
    cases hbe : n == c.1 with
    | true =>
      have hnc : n = c.1 := eq_of_beq hbe
      simp [mapCols, List.lookup, hbe, hnc]
    | false =>
      simp only [mapCols, List.map_cons, List.lookup, hbe]
      exact ih

theorem lookup_setCol (df : Table) (n : String) (v : List Cell) :
    List.lookup n (setCol df n v) = (List.lookup n df).map fun _ => v := by
  induction df with
  | nil => rfl
  | cons c t ih =>
    simp only [setCol, List.map_cons]
    by_cases hd : c.1 = n
    · rw [if_pos hd]
      subst hd
      simp [List.lookup]
    · rw [if_neg hd]
      have hbe : (n == c.1) = false := by
        cases hbe2 : n == c.1
        · rfl
        · exact absurd (eq_of_beq hbe2).symm hd
      simp only [List.lookup, hbe]
      exact ih

theorem fillnaCell_ne_empty (c : Cell) : fillnaCell c ≠ Cell.empty := by
  unfold fillnaCell
  split
  · exact fun hcontra => Cell.noConfusion hcontra
  · next hc => exact hc

theorem nonEmptyCell_fillna (c : Cell) : nonEmptyCell (fillnaCell c) = nonEmptyCell c := by
  cases c <;> rfl

theorem count_non_empty_map_fillna (l : List Cell) :
    count_non_empty (l.map fillnaCell) = count_non_empty l := by
  unfold count_non_empty
  rw [List.countP_map]
  exact List.countP_congr fun c _ => by
    rw [show (nonEmptyCell ∘ fillnaCell) c = nonEmptyCell c from nonEmptyCell_fillna c]

theorem ffillGo_of_no_empty (acc : Option Cell) (l : List Cell)
    (h : ∀ c ∈ l, c ≠ Cell.empty) : ffillGo acc l = l := by
  induction l generalizing acc with
  | nil => rfl
  | cons c t ih =>
    have hc : c ≠ Cell.empty := h c (List.mem_cons_self c t)
    simp only [ffillGo, if_neg hc]
    rw [ih (some c) fun x hx => h x (List.mem_cons_of_mem c hx)]

theorem map_fillna_of_no_empty (l : List Cell) (h : ∀ c ∈ l, c ≠ Cell.empty) :
    l.map fillnaCell = l := by
  have h2 : l.map fillnaCell = l.map id := List.map_congr_left fun c hc => by
    unfold fillnaCell
    rw [if_neg (h c hc)]
    rfl
  rw [h2, List.map_id]

theorem firstValid_isSome_of_count_pos (l : List Cell) (h : 0 < count_non_empty l) :
    ∃ j, firstValidIndex l = some j := by
  induction l with
  | nil => simp [count_non_empty] at h
  | cons c t ih =>
    by_cases hc : c = Cell.empty
    · subst hc
      have h2 : 0 < count_non_empty t := by
        simpa [count_non_empty, List.countP_cons, nonEmptyCell] using h
      obtain ⟨j, hj⟩ := ih h2
      exact ⟨j + 1, by simp [firstValidIndex, hj]⟩
    · exact ⟨0, by simp [firstValidIndex, hc]⟩

theorem count_regenHours (s : ℤ) : count_non_empty (regenHours s) = 24 := by
  have h1 : (regenHours s).length = 24 := by
    unfold regenHours
    rw [List.length_map, List.length_range]
  have h2 : count_non_empty (regenHours s) = (regenHours s).length := by
    unfold count_non_empty
    apply List.countP_eq_length.mpr
    intro c hc
    obtain ⟨i, _, hi⟩ := List.mem_map.mp hc
    rw [← hi]
    rfl
  rw [h2, h1]

theorem regen_no_empty (s : ℤ) : ∀ c ∈ regenHours s, c ≠ Cell.empty := by
  intro c hc
  obtain ⟨i, _, hi⟩ := List.mem_map.mp hc
  rw [← hi]
  exact fun hcontra => Cell.noConfusion hcontra

/-- Case analysis on the hour branch: a successful satStep either leaves
the table alone (hour population count not 1) or rewrites the hour
column to a regenerated cycle. -/
theorem satStep_cases (d t : Table) (h : satStep d = some t) :
    (count_non_empty (getCol d satName) ≠ 1 ∧ t = d) ∨
    (∃ s, t = setCol d satName (regenHours s)) := by
  unfold satStep at h
  split at h
  · next hc =>
    split at h
    · next hfv =>
      exfalso
      obtain ⟨j, hj⟩ := firstValid_isSome_of_count_pos (getCol d satName) (by omega)
      rw [hj] at hfv
      cases hfv
    · next j hfv =>
      split at h
      · cases h
      · next s hti =>
        right
        exact ⟨s, by cases h; rfl⟩
  · next hc =>
    left
    exact ⟨hc, by cases h; rfl⟩

/-- The hour column of the fillna output, by cases on whether the column
exists at all. -/
theorem getCol_fillnaStep (t : Table) :
    getCol (fillnaStep t) satName = (getCol t satName).map fillnaCell ∨
    (getCol (fillnaStep t) satName = [] ∧ getCol t satName = []) := by
  unfold fillnaStep getCol
  rw [lookup_mapCols]
  cases List.lookup satName t with
  | none => right; exact ⟨rfl, rfl⟩
  | some col => left; rfl

/-- The hour column of a normalized table never has population count 1:
a seed column has been expanded to 24 values and any other count is
preserved by the fillna pass. -/
theorem fill_output_sat_count (df g : Table) (h : fill_missing_values df = some g) :
    count_non_empty (getCol g satName) ≠ 1 := by
  unfold fill_missing_values at h
  obtain ⟨t, ht, hg⟩ := Option.map_eq_some'.mp h
  rcases satStep_cases (ffillStep df) t ht with ⟨hc, rfl⟩ | ⟨s, rfl⟩
  · rcases getCol_fillnaStep (ffillStep df) with hgc | ⟨hgc1, hgc2⟩
    · rw [← hg, hgc, count_non_empty_map_fillna]
      exact hc
    · rw [← hg, hgc1]
      decide
  · rcases getCol_fillnaStep (setCol (ffillStep df) satName (regenHours s)) with hgc | ⟨hgc1, _⟩
    · rw [← hg, hgc]
      rw [count_non_empty_map_fillna]
      unfold getCol
      rw [lookup_setCol]
      cases List.lookup satName (ffillStep df) with
      | none => simp [count_non_empty]
      | some col =>
        show count_non_empty (regenHours s) ≠ 1
        rw [count_regenHours]
        decide
    · rw [← hg, hgc1]
      decide

/-- Every cell of a normalized table is populated (never NaN). -/
theorem fill_output_no_empty (df g : Table) (h : fill_missing_values df = some g) :
    ∀ c ∈ g, ∀ x ∈ c.2, x ≠ Cell.empty := by
  unfold fill_missing_values at h
  obtain ⟨t, _, hg⟩ := Option.map_eq_some'.mp h
  intro c hc x hx
  rw [← hg] at hc
  obtain ⟨p, _, hp⟩ := List.mem_map.mp hc
  rw [← hp] at hx
  obtain ⟨y, _, hy⟩ := List.mem_map.mp hx
  rw [← hy]
  exact fillnaCell_ne_empty y

/-! ## C5: single hour seed expansion -/

theorem getD_replicate_append (j k : Nat) (x : Cell) :
    (List.replicate j Cell.empty ++ x :: List.replicate k Cell.empty).getD j Cell.empty = x := by
  induction j with
  | zero => rfl
  | succ n ih => simpa [List.replicate_succ, List.getD_cons_succ] using ih

theorem firstValid_replicate (j k : Nat) (x : Cell) (hx : x ≠ Cell.empty) :
    firstValidIndex (List.replicate j Cell.empty ++ x :: List.replicate k Cell.empty)
      = some j := by
  induction j with
  | zero => simp [firstValidIndex, hx]
  | succ n ih => simp [List.replicate_succ, firstValidIndex, ih]

theorem countP_replicate_empty (n : Nat) :
    List.countP nonEmptyCell (List.replicate n Cell.empty) = 0 := by
  induction n with
  | zero => rfl
  | succ m ih => simp [List.replicate_succ, List.countP_cons, nonEmptyCell, ih]

theorem count_replicate_single (j k : Nat) (x : Cell) :
    count_non_empty (List.replicate j Cell.empty ++ x :: List.replicate k Cell.empty)
      = if nonEmptyCell x then 1 else 0 := by
  unfold count_non_empty
  rw [List.countP_append, List.countP_cons, countP_replicate_empty, countP_replicate_empty]
  simp

theorem ratTrunc_intCast (s : ℤ) : ratTrunc ((s : ℤ) : ℚ) = s := by
  unfold ratTrunc
  rw [Rat.num_intCast, Rat.den_intCast, Nat.cast_one, Int.tdiv_one]

/-- C5.  For every table whose hour column consists of a single integer
seed s at 0-based row j and NaN everywhere else (population count 1),
normalization succeeds and regenerates the whole hour column as
(s + i) mod 24 at row i for i = 0..23. -/
theorem fill_missing_values_hour_expansion (df : Table) (s : ℤ) (j k : Nat)
    (hjk : j + (k + 1) = 24)
    (hsat : getCol df satName
      = List.replicate j Cell.empty
          ++ Cell.num ((s : ℤ) : ℚ) :: List.replicate k Cell.empty) :
    ∃ g, fill_missing_values df = some g ∧
      getCol g satName
        = (List.range 24).map fun (i : ℕ) => Cell.num ((Int.emod (s + (i : ℤ)) 24 : ℤ) : ℚ) := by
  have hns : satName ∉ repeat_down_columns := by decide
  obtain ⟨col, hcol⟩ : ∃ col, List.lookup satName df = some col := by
    cases hq : List.lookup satName df with
    | some col => exact ⟨col, rfl⟩
    | none =>
      exfalso
      have hlen := congrArg List.length hsat
      rw [getCol, hq] at hlen
      simp [List.length_append, List.length_replicate] at hlen
      omega
  have hd1 : getCol (ffillStep df) satName = getCol df satName := by
    unfold ffillStep getCol
    rw [lookup_mapCols, hcol]
    simp [hns]
  have hcount : count_non_empty (getCol (ffillStep df) satName) = 1 := by
    rw [hd1, hsat, count_replicate_single]
    rfl
  have hfv : firstValidIndex (getCol (ffillStep df) satName) = some j := by
    rw [hd1, hsat]
    exact firstValid_replicate j k _ fun hcontra => Cell.noConfusion hcontra
  have hget : (getCol (ffillStep df) satName).getD j Cell.empty = Cell.num ((s : ℤ) : ℚ) := by
    rw [hd1, hsat]
    exact getD_replicate_append j k _
  have hti : toIntCell ((getCol (ffillStep df) satName).getD j Cell.empty) = some s := by
    rw [hget]
    simp only [toIntCell]
    rw [ratTrunc_intCast]
  have hsatstep : satStep (ffillStep df)
      = some (setCol (ffillStep df) satName (regenHours s)) := by
    unfold satStep
    rw [if_pos hcount]
    simp only [hfv, hti]
  have hlk1 : List.lookup satName (ffillStep df) = some (getCol df satName) := by
    unfold ffillStep getCol
    rw [lookup_mapCols, hcol]
    simp [hns]
  refine ⟨fillnaStep (setCol (ffillStep df) satName (regenHours s)), ?_, ?_⟩
  · unfold fill_missing_values
    rw [hsatstep]
    rfl
  · unfold fillnaStep getCol
    rw [lookup_mapCols, lookup_setCol, hlk1]
    show (regenHours s).map fillnaCell = _
    rw [map_fillna_of_no_empty (regenHours s) (regen_no_empty s)]
    rfl

/-- Schema-valid table whose hour column holds only the seed 10 at
0-based row 5 (population count 1). -/
def df5 : Table :=
  mkTable (List.replicate 5 Cell.empty
    ++ Cell.num ((10 : ℤ) : ℚ) :: List.replicate 18 Cell.empty) emptyCol

set_option maxRecDepth 4000 in
/-- Witness: seed 10 at row 5 expands to the cycle 10, 11, ..., 23, 0,
..., 9 (row 0 = 10, row 14 = 0, row 23 = 9). -/
theorem fill_missing_values_hour_expansion_witness :
    (5 + (18 + 1) = 24 ∧
     getCol df5 satName
       = List.replicate 5 Cell.empty
           ++ Cell.num ((10 : ℤ) : ℚ) :: List.replicate 18 Cell.empty) ∧
    ∃ g, fill_missing_values df5 = some g ∧
      getCol g satName
        = (List.range 24).map fun (i : ℕ) => Cell.num ((Int.emod (10 + (i : ℤ)) 24 : ℤ) : ℚ) :=
  ⟨⟨by decide, by decide⟩,
   fill_missing_values_hour_expansion df5 10 5 18 (by decide) (by decide)⟩

/-! ## C6: idempotence of the normalizer -/

/-- C6.  The Filler/Normalizer is idempotent: whenever it succeeds,
running it again on its own output returns that output unchanged. -/
theorem fill_missing_values_idempotent (df g : Table)
    (h : fill_missing_values df = some g) :
    fill_missing_values g = some g := by
  have hno := fill_output_no_empty df g h
  have hcnt := fill_output_sat_count df g h
  have hff : ffillStep g = g := by
    unfold ffillStep mapCols
    have hcongr : ∀ c ∈ g,
        (c.1, if c.1 ∈ repeat_down_columns then ffillCol c.2 else c.2) = id c := by
      intro c hc
      have hcol : (if c.1 ∈ repeat_down_columns then ffillCol c.2 else c.2) = c.2 := by
        split
        · exact ffillGo_of_no_empty none c.2 (hno c hc)
        · rfl
      rw [hcol]
      rfl
    rw [List.map_congr_left hcongr, List.map_id]
  have hfn : fillnaStep g = g := by
    unfold fillnaStep mapCols
    have hcongr : ∀ c ∈ g, (c.1, c.2.map fillnaCell) = id c := by
      intro c hc
      rw [map_fillna_of_no_empty c.2 (hno c hc)]
      rfl
    rw [List.map_congr_left hcongr, List.map_id]
  have hsat : satStep g = some g := by
    unfold satStep
    rw [if_neg hcnt]
  unfold fill_missing_values
  rw [hff, hsat]
  show some (fillnaStep g) = some g
  rw [hfn]

/-- The normalized form of df5: the hour cycle seeded at 10 and every
other cell the empty-string marker. -/
def df5Filled : Table :=
  EXPECTED_COLUMNS.map fun n =>
    if n = satName then (n, regenHours 10)
    else (n, List.replicate 24 (Cell.text blankStr))

set_option maxRecDepth 8000 in
/-- Witness: normalizing df5 yields df5Filled, and normalizing that
output again returns it unchanged. -/
theorem fill_missing_values_idempotent_witness :
    fill_missing_values df5 = some df5Filled ∧
    fill_missing_values df5Filled = some df5Filled :=
  ⟨by decide, fill_missing_values_idempotent df5 df5Filled (by decide)⟩

/-! ## C10: normalization does not mutate its input -/

/-- C10.  The fill run never writes to the callers frame: replaying
fill_missing_values against the explicit two-frame store leaves the df
field untouched (every write targets the df_filled copy), the copy
evolves exactly as the functional fill_missing_values, and the
statistics reported by validate_excel_structure are always those
computed from the raw input table — so computing them before or after
the preview is produced makes no difference. -/
theorem fill_run_preserves_input_and_statistics_raw (df : Table) :
    ((fill_missing_values_run ⟨df, df⟩).map PandasStore.df
        = (fill_missing_values_run ⟨df, df⟩).map fun _ => df) ∧
    ((fill_missing_values_run ⟨df, df⟩).map PandasStore.df_filled
        = fill_missing_values df) ∧
    ((validate_excel_structure df).statistics = none ∨
     (validate_excel_structure df).statistics = some (calculate_statistics df)) := by
  refine ⟨?_, ?_, ?_⟩
  · unfold fill_missing_values_run
    cases hx : satStep (ffillStep df) with
    | none => simp [hx]
    | some t => simp [hx]
  · unfold fill_missing_values_run fill_missing_values
    cases hx : satStep (ffillStep df) with
    | none => simp [hx]
    | some t => simp [hx]
  · simp only [validate_excel_structure]
    by_cases hse : (schemaErrors df).isEmpty = true
    · rw [if_pos hse]
      cases hf : fill_missing_values df with
      | none => simp only [hf]; exact Or.inl trivial
      | some filled => simp only [hf]; exact Or.inr trivial
    · rw [if_neg hse]
      exact Or.inl rfl

end TsfApp
